import Mathlib

/-!
Shallow embedding of the EasyClassificationPipeline backend
(Flask + SQLAlchemy + S3), covering the device / model / result data
model, the repository layer, the service layer and the HTTP controllers.

Conventions of the embedding:
* UUID columns are `String`; timestamps (`datetime.utcnow()`) are `Nat`
  values threaded explicitly as a `now` argument.
* The SQLAlchemy session is a `Store` value; `commit` is the returned
  updated `Store`.
* `Query.filter_by(...).first()` is `List.find?`; mutating the found row
  and committing is `updateFirst`; `db.session.delete(row)` is
  `removeFirst`.
* S3 calls are modelled by an explicit outcome argument
  (`S3Outcome.ok` / `S3Outcome.clientError`), since their result is
  decided by the external service.
* Python truthiness of an optional string (`if model_id:`) is
  `truthyStr`; truthiness of an optional UUID object is `Option.isSome`
  (a UUID object is always truthy); truthiness of an int (`if limit:`)
  is `≠ 0`.
* JSON metadata blobs are opaque `String`s (`Option String` where the
  column is nullable); `confidence` (a float no claim computes with) is
  an opaque `Int`.
-/

/-- Row of the `devices` table (`app/models/device.py`). -/
structure Device where
  device_id : String
  device_name : String
  registration_date : Nat
  last_active : Nat
  current_model_id : Option String
  status : String
  is_active : Bool
deriving DecidableEq, Repr

/-- Row of the `models` table (`app/models/model.py`). -/
structure MLModel where
  model_id : String
  project_name : String
  upload_date : Nat
  s3_bucket : String
  s3_key : String
  original_filename : String
  model_metadata : Option String
  is_active : Bool
deriving DecidableEq, Repr

/-- Row of the `results` table (`app/models/result.py`). -/
structure ClassificationResult where
  result_id : String
  device_id : String
  model_id : String
  timestamp : Nat
  result : String
  confidence : Int
  result_metadata : Option String
deriving DecidableEq, Repr

/-- The database state: the three tables. -/
structure Store where
  devices : List Device
  models : List MLModel
  results : List ClassificationResult
deriving DecidableEq, Repr

/-- Update the first row matching `p` (SQLAlchemy: mutate `query.first()`
and commit). -/
def updateFirst {α : Type} (p : α → Bool) (f : α → α) : List α → List α
  | [] => []
  | x :: xs => if p x then f x :: xs else x :: updateFirst p f xs

/-- Remove the first row matching `p` (`db.session.delete(row)` on the
row returned by `query.first()` / `query.get`). -/
def removeFirst {α : Type} (p : α → Bool) : List α → List α
  | [] => []
  | x :: xs => if p x then xs else x :: removeFirst p xs

/-- Python truthiness of an optional string: `None` and `""` are falsy. -/
def truthyStr : Option String → Bool
  | none => false
  | some s => !(s == "")

/-- Python `'not found' in err` (substring test used by the controllers
to pick a 404 over a 400). -/
def containsNotFound (e : String) : Bool :=
  e.toList.tails.any (fun t => "not found".toList.isPrefixOf t)

/-- Outcome of an S3 call, decided by the external service. -/
inductive S3Outcome
  | ok
  | clientError
deriving DecidableEq, Repr

namespace DeviceRepository

/-- DeviceRepository.get_by_id: active-only lookup by primary key
(`include_inactive=False` default). -/
def get_by_id (s : Store) (device_id : String) : Option Device :=
  s.devices.find? (fun d => d.is_active && d.device_id == device_id)

/-- DeviceRepository.create: insert a fresh device with status `idle`. -/
def create (s : Store) (device_name : String) (new_id : String) (now : Nat) :
    Store × Device :=
  let d : Device :=
    { device_id := new_id, device_name := device_name,
      registration_date := now, last_active := now,
      current_model_id := none, status := "idle", is_active := true }
  ({ s with devices := s.devices ++ [d] }, d)

/-- DeviceRepository.update_model: on the first active device with this
id, set `current_model_id` (possibly `None`) and refresh `last_active`. -/
def update_model (s : Store) (device_id : String) (model_id : Option String)
    (now : Nat) : Store × Option Device :=
  match s.devices.find? (fun d => d.device_id == device_id && d.is_active) with
  | none => (s, none)
  | some d =>
    let d' := { d with current_model_id := model_id, last_active := now }
    let devices' :=
      updateFirst (fun x => x.device_id == device_id && x.is_active)
        (fun x => { x with current_model_id := model_id, last_active := now })
        s.devices
    ({ s with devices := devices' }, some d')

/-- DeviceRepository.update_heartbeat: on the first active device with
this id, always refresh `last_active`; set `status` only when the given
status is truthy (`if status:`). -/
def update_heartbeat (s : Store) (device_id : String) (status : Option String)
    (now : Nat) : Store × Option Device :=
  match s.devices.find? (fun d => d.device_id == device_id && d.is_active) with
  | none => (s, none)
  | some d =>
    let upd : Device → Device := fun x =>
      { x with last_active := now,
               status := if truthyStr status then status.getD x.status else x.status }
    let devices' :=
      updateFirst (fun x => x.device_id == device_id && x.is_active) upd s.devices
    ({ s with devices := devices' }, some (upd d))

/-- DeviceRepository.delete: soft delete by primary key (`query.get`,
so active status is not checked). -/
def delete (s : Store) (device_id : String) : Store × Bool :=
  match s.devices.find? (fun d => d.device_id == device_id) with
  | none => (s, false)
  | some _ =>
    let devices' :=
      updateFirst (fun d => d.device_id == device_id)
        (fun d => { d with is_active := false, status := "inactive" })
        s.devices
    ({ s with devices := devices' }, true)

/-- DeviceRepository.hard_delete: remove the row by primary key. -/
def hard_delete (s : Store) (device_id : String) : Store × Bool :=
  match s.devices.find? (fun d => d.device_id == device_id) with
  | none => (s, false)
  | some _ =>
    ({ s with devices := removeFirst (fun d => d.device_id == device_id) s.devices },
     true)

end DeviceRepository

namespace ModelRepository

/-- ModelRepository.get_by_id: active-only lookup
(`include_inactive=False` default). -/
def get_by_id (s : Store) (model_id : String) : Option MLModel :=
  s.models.find? (fun m => m.is_active && m.model_id == model_id)

/-- ModelRepository.create: upload the artifact to S3 first; a
`ClientError` raises before any record is created; only on success is
the row added and committed. -/
def create (s : Store) (bucket filename project_name : String)
    (metadata : Option String) (new_id : String) (now : Nat)
    (upload : S3Outcome) : Except String (Store × MLModel) :=
  let s3_key := "models/" ++ project_name ++ "/" ++ filename
  match upload with
  | .clientError => .error "Failed to upload model to S3"
  | .ok =>
    let m : MLModel :=
      { model_id := new_id, project_name := project_name, upload_date := now,
        s3_bucket := bucket, s3_key := s3_key, original_filename := filename,
        model_metadata := metadata, is_active := true }
    .ok ({ s with models := s.models ++ [m] }, m)

/-- ModelRepository.delete (soft): `Model.query.get` by primary key;
first unassign every device pointing at the model (clearing
`current_model_id`, resetting `status` to `idle`), then flip
`is_active` off, in one commit. -/
def delete (s : Store) (model_id : String) : Store × Bool :=
  match s.models.find? (fun m => m.model_id == model_id) with
  | none => (s, false)
  | some _ =>
    let devices := s.devices.map (fun d =>
      if d.current_model_id == some model_id then
        { d with current_model_id := none, status := "idle" }
      else d)
    let models := updateFirst (fun m => m.model_id == model_id)
      (fun m => { m with is_active := false }) s.models
    ({ s with devices := devices, models := models }, true)

/-- ModelRepository.hard_delete: unassign devices as in the soft delete,
attempt the S3 object delete (a `ClientError` is logged and ignored),
then remove the row; all in one commit. -/
def hard_delete (s : Store) (model_id : String) (s3 : S3Outcome) :
    Store × Bool :=
  match s.models.find? (fun m => m.model_id == model_id) with
  | none => (s, false)
  | some _ =>
    let devices := s.devices.map (fun d =>
      if d.current_model_id == some model_id then
        { d with current_model_id := none, status := "idle" }
      else d)
    let models' := removeFirst (fun m => m.model_id == model_id) s.models
    match s3 with
    | .ok => ({ s with devices := devices, models := models' }, true)
    | .clientError => ({ s with devices := devices, models := models' }, true)

end ModelRepository

namespace ResultRepository

/-- ResultRepository.get_all: join on device and model rows, keep only
rows whose device and model are both active, apply the optional string
filters (Python truthiness), order newest-first by timestamp, and cap
at `limit` unless `limit` is falsy (`if limit:`). Sorting is defined
below. -/
def passesJoin (s : Store) (r : ClassificationResult) : Bool :=
  s.devices.any (fun d => d.device_id == r.device_id && d.is_active) &&
  s.models.any (fun m => m.model_id == r.model_id && m.is_active)

/-- Insert into a list kept sorted newest-first by timestamp. -/
def insertDesc (r : ClassificationResult) :
    List ClassificationResult → List ClassificationResult
  | [] => [r]
  | x :: xs =>
    if x.timestamp < r.timestamp then r :: x :: xs else x :: insertDesc r xs

/-- Sort newest-first by timestamp (`order_by(Result.timestamp.desc())`). -/
def sortDesc : List ClassificationResult → List ClassificationResult
  | [] => []
  | x :: xs => insertDesc x (sortDesc xs)

def get_all (s : Store) (device_id model_id : Option String) (limit : Nat) :
    List ClassificationResult :=
  let base := s.results.filter (passesJoin s)
  let base :=
    if truthyStr device_id then
      base.filter (fun r => r.device_id == device_id.getD "")
    else base
  let base :=
    if truthyStr model_id then
      base.filter (fun r => r.model_id == model_id.getD "")
    else base
  let sorted := sortDesc base
  if limit ≠ 0 then sorted.take limit else sorted

/-- ResultRepository.create: verify that the device and the model both
exist and are active; if either is missing return `None` and change
nothing; otherwise build the row, refresh the device's `last_active`,
and commit both together. -/
def create (s : Store) (device_id model_id result_value : String)
    (confidence : Int) (metadata : Option String) (new_id : String)
    (now : Nat) : Store × Option ClassificationResult :=
  let dev := s.devices.find? (fun d => d.device_id == device_id && d.is_active)
  let mdl := s.models.find? (fun m => m.model_id == model_id && m.is_active)
  match dev, mdl with
  | some _, some _ =>
    let r : ClassificationResult :=
      { result_id := new_id, device_id := device_id, model_id := model_id,
        timestamp := now, result := result_value, confidence := confidence,
        result_metadata := metadata }
    let devices' :=
      updateFirst (fun d => d.device_id == device_id && d.is_active)
        (fun d => { d with last_active := now }) s.devices
    ({ s with devices := devices', results := s.results ++ [r] }, some r)
  | _, _ => (s, none)

end ResultRepository

/-- Response body of the heartbeat endpoint
(`DeviceService.update_heartbeat`'s success dictionary). -/
structure HeartbeatResp where
  model_id : Option String
  should_download : Bool
  metadata : Option String
deriving DecidableEq, Repr

namespace DeviceService

/-- DeviceService.register_device: create the device; in the embedding
the repository cannot raise, so the call always succeeds. -/
def register_device (s : Store) (device_name : String) (new_id : String)
    (now : Nat) : Store × Bool :=
  let (s', _) := DeviceRepository.create s device_name new_id now
  (s', true)

/-- DeviceService.set_device_model: when the given model id is truthy,
require an active model with that id; then delegate to
`DeviceRepository.update_model`, reporting `Device not found` when the
device lookup fails. -/
def set_device_model (s : Store) (device_id : String) (model_id : Option String)
    (now : Nat) : Store × Bool × String :=
  if truthyStr model_id && (ModelRepository.get_by_id s (model_id.getD "")).isNone then
    (s, false, "Model not found")
  else
    match DeviceRepository.update_model s device_id model_id now with
    | (_, none) => (s, false, "Device not found")
    | (s', some _) => (s', true, "Model set successfully")

/-- DeviceService.update_heartbeat: touch the device (NotFound when no
active device has the id); then read its `current_model_id`; when it is
set, look the model up active-only: found means
`should_download := true` with the model's metadata, otherwise
`should_download := false` with no metadata, while `model_id` in the
response echoes the device's assignment either way. -/
def update_heartbeat (s : Store) (device_id : String) (status : Option String)
    (now : Nat) : Store × Except String HeartbeatResp :=
  match DeviceRepository.update_heartbeat s device_id status now with
  | (_, none) => (s, .error "Device not found")
  | (s', some d) =>
    match d.current_model_id with
    | none =>
      (s', .ok { model_id := none, should_download := false, metadata := none })
    | some mid =>
      match ModelRepository.get_by_id s' mid with
      | some m =>
        (s', .ok { model_id := some mid, should_download := true,
                   metadata := m.model_metadata })
      | none =>
        (s', .ok { model_id := some mid, should_download := false,
                   metadata := none })

/-- DeviceService.delete_device: dispatch on the hard-delete flag. -/
def delete_device (s : Store) (device_id : String) (hard : Bool) :
    Store × Bool :=
  if hard then DeviceRepository.hard_delete s device_id
  else DeviceRepository.delete s device_id

end DeviceService

namespace ModelService

/-- ModelService.create_model: call the repository; an exception
(failed S3 upload) is caught and reported as failure, leaving the
store unchanged. -/
def create_model (s : Store) (bucket filename project_name : String)
    (metadata : Option String) (new_id : String) (now : Nat)
    (upload : S3Outcome) : Store × Bool :=
  match ModelRepository.create s bucket filename project_name metadata new_id
      now upload with
  | .error _ => (s, false)
  | .ok (s', _) => (s', true)

/-- ModelService.delete_model: dispatch on the hard-delete flag. -/
def delete_model (s : Store) (model_id : String) (hard : Bool)
    (s3 : S3Outcome) : Store × Bool :=
  if hard then ModelRepository.hard_delete s model_id s3
  else ModelRepository.delete s model_id

end ModelService

namespace ResultService

/-- ResultService.create_result: delegate to the repository; `None`
becomes the `Device or model not found` failure; on success the device
heartbeat is touched once more (no status). -/
def create_result (s : Store) (device_id model_id result_value : String)
    (confidence : Int) (extra : Option String) (new_id : String)
    (now : Nat) : Store × Bool × String :=
  match ResultRepository.create s device_id model_id result_value confidence
      extra new_id now with
  | (_, none) => (s, false, "Device or model not found")
  | (s1, some _) =>
    let (s2, _) := DeviceRepository.update_heartbeat s1 device_id none now
    (s2, true, "Result uploaded successfully")

end ResultService

/-- The value of the `model_id` field in the set_model request body: a
JSON null or a JSON string. -/
inductive JsonId
  | jnull
  | jstr (s : String)
deriving DecidableEq, Repr

/-- Controller-side normalisation in `set_device_model`: the strings
`"null"` and `"None"`, like a JSON null, mean unassignment. -/
def parseModelId : JsonId → Option String
  | .jnull => none
  | .jstr s => if s == "null" || s == "None" then none else some s

/-- The `require_api_key` decorator (`app/utils/auth.py`): a missing or
falsy `X-API-Key` header gives a 401, a key different from the
configured one gives a 401, otherwise the wrapped handler runs. -/
def require_api_key (apiKey : Option String) (cfgKey : String) : Option Nat :=
  match apiKey with
  | none => some 401
  | some k => if k == "" then some 401
              else if k == cfgKey then none else some 401

namespace Controllers

/-- POST /devices/register (no API-key gate): the `apiKey` argument is
the header the handler never reads. -/
def register_device (s : Store) (_apiKey : Option String) (device_name : String)
    (new_id : String) (now : Nat) : Store × Nat :=
  match DeviceService.register_device s device_name new_id now with
  | (s', true) => (s', 200)
  | (_, false) => (s, 500)

/-- POST /devices/id/set_model, gated by `require_api_key`; on service
failure the status is 404 when the error mentions `not found`, else
400. -/
def set_device_model (s : Store) (apiKey : Option String) (cfgKey : String)
    (device_id : String) (body : JsonId) (now : Nat) : Store × Nat :=
  match require_api_key apiKey cfgKey with
  | some code => (s, code)
  | none =>
    match DeviceService.set_device_model s device_id (parseModelId body) now with
    | (s', true, _) => (s', 200)
    | (_, false, err) => (s, if containsNotFound err then 404 else 400)

/-- POST /devices/id/heartbeat (no API-key gate): a service error is a
404 with no body, success is a 200 with the assignment payload. -/
def device_heartbeat (s : Store) (_apiKey : Option String) (device_id : String)
    (status : Option String) (now : Nat) : Store × Nat × Option HeartbeatResp :=
  match DeviceService.update_heartbeat s device_id status now with
  | (_, .error _) => (s, 404, none)
  | (s', .ok r) => (s', 200, some r)

/-- DELETE /devices/id, gated by `require_api_key`. -/
def delete_device (s : Store) (apiKey : Option String) (cfgKey : String)
    (device_id : String) (hard : Bool) : Store × Nat :=
  match require_api_key apiKey cfgKey with
  | some code => (s, code)
  | none =>
    match DeviceService.delete_device s device_id hard with
    | (s', true) => (s', 200)
    | (_, false) => (s, 404)

/-- POST /models/create, gated by `require_api_key`; a service failure
(S3 upload error) is a 500. -/
def upload_model (s : Store) (apiKey : Option String) (cfgKey : String)
    (bucket filename project_name : String) (metadata : Option String)
    (new_id : String) (now : Nat) (upload : S3Outcome) : Store × Nat :=
  match require_api_key apiKey cfgKey with
  | some code => (s, code)
  | none =>
    match ModelService.create_model s bucket filename project_name metadata
        new_id now upload with
    | (s', true) => (s', 200)
    | (_, false) => (s, 500)

/-- DELETE /models/id, gated by `require_api_key`. -/
def delete_model (s : Store) (apiKey : Option String) (cfgKey : String)
    (model_id : String) (hard : Bool) (s3 : S3Outcome) : Store × Nat :=
  match require_api_key apiKey cfgKey with
  | some code => (s, code)
  | none =>
    match ModelService.delete_model s model_id hard s3 with
    | (s', true) => (s', 200)
    | (_, false) => (s, 404)

/-- GET /results (no gate): `limit` query parameter defaulting to 50. -/
def list_results (s : Store) (device_id model_id : Option String)
    (limitArg : Option Nat) : List ClassificationResult :=
  ResultRepository.get_all s device_id model_id (limitArg.getD 50)

/-- POST /results (no API-key gate): service failure maps to 404 when
the error mentions `not found`, else 400. -/
def upload_result (s : Store) (_apiKey : Option String)
    (device_id model_id result_value : String) (confidence : Int)
    (extra : Option String) (new_id : String) (now : Nat) : Store × Nat :=
  match ResultService.create_result s device_id model_id result_value
      confidence extra new_id now with
  | (s', true, _) => (s', 200)
  | (_, false, err) => (s, if containsNotFound err then 404 else 400)

end Controllers

/-- Well-formedness the database schema enforces: primary keys are
unique. -/
def Store.wf (s : Store) : Prop :=
  (s.devices.map Device.device_id).Nodup ∧ (s.models.map MLModel.model_id).Nodup

theorem mem_updateFirst {α : Type} (p : α → Bool) (f : α → α) (l : List α)
    (a : α) (ha : a ∈ updateFirst p f l) :
    a ∈ l ∨ ∃ x, x ∈ l ∧ p x = true ∧ a = f x := by
  induction l with
  | nil => simp [updateFirst] at ha
  | cons x xs ih =>
    by_cases hx : p x = true
    · simp [updateFirst, hx] at ha
      rcases ha with ha | ha
      · exact Or.inr ⟨x, by simp, hx, ha⟩
      · exact Or.inl (List.mem_cons_of_mem _ ha)
    · simp [updateFirst, hx] at ha
      rcases ha with ha | ha
      · exact Or.inl (by simp [ha])
      · rcases ih ha with h | ⟨y, hy, hpy, hay⟩
        · exact Or.inl (List.mem_cons_of_mem _ h)
        · exact Or.inr ⟨y, List.mem_cons_of_mem _ hy, hpy, hay⟩

theorem find?_updateFirst_same {α : Type} (p : α → Bool) (f : α → α)
    (l : List α) (x : α) (hfind : l.find? p = some x) (hpf : p (f x) = true) :
    (updateFirst p f l).find? p = some (f x) := by
  induction l with
  | nil => simp at hfind
  | cons a as ih =>
    by_cases ha : p a = true
    · rw [List.find?_cons_of_pos _ ha] at hfind
      injection hfind with hfind
      subst hfind
      simp [updateFirst, ha, List.find?_cons_of_pos _ hpf]
    · rw [List.find?_cons_of_neg _ ha] at hfind
      simp [updateFirst, ha, List.find?_cons_of_neg _ ha, ih hfind]

theorem mem_removeFirst_key_ne {α β : Type} [DecidableEq β] (f : α → β)
    (k : β) (l : List α) (hnd : (l.map f).Nodup) :
    ∀ a ∈ removeFirst (fun x => f x == k) l, f a ≠ k := by
  induction l with
  | nil => intro a ha; simp [removeFirst] at ha
  | cons x xs ih =>
    intro a ha
    by_cases hx : f x = k
    · have hbeq : (f x == k) = true := beq_iff_eq.mpr hx
      simp [removeFirst, hbeq] at ha
      have hnotin : f x ∉ xs.map f := (List.nodup_cons.mp (by simpa using hnd)).1
      intro hak
      exact hnotin (by rw [hx, ← hak]; exact List.mem_map_of_mem f ha)
    · have hbeq : (f x == k) = false := beq_eq_false_iff_ne.mpr hx
      simp [removeFirst, hbeq] at ha
      rcases ha with ha | ha
      · rw [ha]; exact hx
      · exact ih (List.nodup_cons.mp (by simpa using hnd)).2 a ha

theorem updateFirst_deactivates (k : String) (l : List MLModel)
    (hnd : (l.map MLModel.model_id).Nodup) :
    ∀ m ∈ updateFirst (fun x => x.model_id == k)
        (fun x => { x with is_active := false }) l,
      m.model_id = k → m.is_active = false := by
  induction l with
  | nil => intro m hm; simp [updateFirst] at hm
  | cons x xs ih =>
    intro m hm hmk
    by_cases hx : x.model_id = k
    · rw [updateFirst, if_pos (beq_iff_eq.mpr hx)] at hm
      rcases List.mem_cons.mp hm with rfl | hmxs
      · rfl
      · exfalso
        have hnotin : x.model_id ∉ xs.map MLModel.model_id :=
          (List.nodup_cons.mp (by simpa using hnd)).1
        refine hnotin ?_
        rw [hx, ← hmk]
        exact List.mem_map_of_mem MLModel.model_id hmxs
    · rw [updateFirst, if_neg (by simpa using hx)] at hm
      rcases List.mem_cons.mp hm with rfl | hmxs
      · exact absurd hmk hx
      · exact ih (List.nodup_cons.mp (by simpa using hnd)).2 m hmxs hmk

/-- C1 theorem. If a device references the deleted model, then after a
successful soft or hard delete of the model the device row is
unassigned with status `idle`, no device row references the model, and
the model row itself is deactivated (soft) or gone (hard) in the same
committed state. -/
theorem model_delete_unassigns_devices (s : Store) (mid : String)
    (d : Device) (hs : s.wf)
    (hm : (s.models.find? (fun m => m.model_id == mid)).isSome)
    (hd : d ∈ s.devices) (hmd : d.current_model_id = some mid) :
    ((ModelRepository.delete s mid).2 = true ∧
     { d with current_model_id := none, status := "idle" } ∈
       (ModelRepository.delete s mid).1.devices ∧
     (∀ d' ∈ (ModelRepository.delete s mid).1.devices,
        d'.current_model_id ≠ some mid) ∧
     (∀ m ∈ (ModelRepository.delete s mid).1.models,
        m.model_id = mid → m.is_active = false)) ∧
    (∀ s3, (ModelRepository.hard_delete s mid s3).2 = true ∧
     { d with current_model_id := none, status := "idle" } ∈
       (ModelRepository.hard_delete s mid s3).1.devices ∧
     (∀ d' ∈ (ModelRepository.hard_delete s mid s3).1.devices,
        d'.current_model_id ≠ some mid) ∧
     (∀ m ∈ (ModelRepository.hard_delete s mid s3).1.models,
        m.model_id ≠ mid)) := by
  obtain ⟨m0, hm0⟩ := Option.isSome_iff_exists.mp hm
  have hmdbeq : (d.current_model_id == some mid) = true := beq_iff_eq.mpr hmd
  have hdevmem :
      { d with current_model_id := none, status := "idle" } ∈
        s.devices.map (fun d =>
          if d.current_model_id == some mid then
            { d with current_model_id := none, status := "idle" }
          else d) := by
    have := List.mem_map_of_mem (fun d =>
      if d.current_model_id == some mid then
        { d with current_model_id := none, status := "idle" }
      else d) hd
    simpa [hmdbeq] using this
  have hnoref : ∀ d' ∈ s.devices.map (fun d =>
      if d.current_model_id == some mid then
        { d with current_model_id := none, status := "idle" }
      else d), d'.current_model_id ≠ some mid := by
    intro d' hd'
    rcases List.mem_map.mp hd' with ⟨x, _, hx⟩
    by_cases hxm : (x.current_model_id == some mid) = true
    · rw [← hx]; simp [hxm]
    · rw [← hx]; simp [hxm]
      intro hcontra
      exact hxm (beq_iff_eq.mpr hcontra)
  constructor
  · refine ⟨by simp [ModelRepository.delete, hm0], ?_, ?_, ?_⟩
    · simpa [ModelRepository.delete, hm0] using hdevmem
    · simpa [ModelRepository.delete, hm0] using hnoref
    · intro m hmm hmid
      simp [ModelRepository.delete, hm0] at hmm
      exact updateFirst_deactivates mid s.models hs.2 m hmm hmid
  · intro s3
    refine ⟨?_, ?_, ?_, ?_⟩
    · cases s3 <;> simp [ModelRepository.hard_delete, hm0]
    · cases s3 <;> simpa [ModelRepository.hard_delete, hm0] using hdevmem
    · cases s3 <;> simpa [ModelRepository.hard_delete, hm0] using hnoref
    · intro m hmm
      have key := mem_removeFirst_key_ne MLModel.model_id mid s.models hs.2
      cases s3 <;> simp [ModelRepository.hard_delete, hm0] at hmm <;>
        exact key m hmm

/-- Sample rows used to instantiate the theorems on concrete stores. -/
def sampleDevice : Device :=
  { device_id := "d1", device_name := "pi-1", registration_date := 0,
    last_active := 0, current_model_id := some "m1", status := "running",
    is_active := true }

def sampleModel : MLModel :=
  { model_id := "m1", project_name := "proj", upload_date := 0,
    s3_bucket := "bkt", s3_key := "models/proj/f.tflite",
    original_filename := "f.tflite", model_metadata := some "labels",
    is_active := true }

def sampleStore : Store :=
  { devices := [sampleDevice], models := [sampleModel], results := [] }

/-- Store whose only device carries an orphaned model reference. -/
def orphanStore : Store :=
  { devices := [sampleDevice], models := [], results := [] }

/-- Store whose only device is soft-deleted. -/
def inactiveDeviceStore : Store :=
  { devices := [{ sampleDevice with is_active := false, status := "inactive" }],
    models := [sampleModel], results := [] }

/-- C1 witness: deleting model `m1` in the sample store yields the
unassigned, idle device row. -/
theorem model_delete_unassigns_devices_witness :
    { sampleDevice with current_model_id := none, status := "idle" } ∈
      (ModelRepository.delete sampleStore "m1").1.devices :=
  ((model_delete_unassigns_devices sampleStore "m1" sampleDevice
      ⟨by decide, by decide⟩ (by decide) (by decide) (by decide)).1).2.1

/-- C8 theorem. For an active device, the heartbeat touch always sets
`last_active` to the current time; with no status given the returned
and stored row differ from the old row in `last_active` alone (status
and every other field unchanged); a non-empty status is the only other
field written. -/
theorem touch_device_frame (s : Store) (did : String) (now : Nat) (d : Device)
    (hfind : s.devices.find? (fun x => x.device_id == did && x.is_active) = some d) :
    (DeviceRepository.update_heartbeat s did none now).2 =
      some { d with last_active := now } ∧
    (DeviceRepository.update_heartbeat s did none now).1.devices.find?
        (fun x => x.device_id == did && x.is_active) =
      some { d with last_active := now } ∧
    (∀ st : String, st ≠ "" →
      (DeviceRepository.update_heartbeat s did (some st) now).2 =
        some { d with last_active := now, status := st }) ∧
    (DeviceRepository.update_heartbeat s did (some "") now).2 =
      some { d with last_active := now } := by
  refine ⟨?_, ?_, ?_, ?_⟩
  · simp [DeviceRepository.update_heartbeat, hfind, truthyStr]
  · have h2 := find?_updateFirst_same
      (fun x : Device => x.device_id == did && x.is_active)
      (fun x => { x with last_active := now, status := if truthyStr none then (none : Option String).getD x.status else x.status })
      s.devices d hfind (by simpa using List.find?_some hfind)
    simpa [DeviceRepository.update_heartbeat, hfind, truthyStr] using h2
  · intro st hst
    have hbeq : (st == "") = false := beq_eq_false_iff_ne.mpr hst
    simp [DeviceRepository.update_heartbeat, hfind, truthyStr, hbeq]
  · simp [DeviceRepository.update_heartbeat, hfind, truthyStr]

/-- C8 witness: touching `d1` at time 9 with no status refreshes only
`last_active`. -/
theorem touch_device_frame_witness :
    (DeviceRepository.update_heartbeat sampleStore "d1" none 9).2 =
      some { sampleDevice with last_active := 9 } :=
  (touch_device_frame sampleStore "d1" 9 sampleDevice (by decide)).1

/-- C5 theorem. When no active device carries the id (absent or
soft-deleted), the heartbeat endpoint answers 404 with no assignment
payload and leaves the store unchanged. -/
theorem heartbeat_unknown_device_404 (s : Store) (did : String)
    (st : Option String) (now : Nat) (key : Option String)
    (h : s.devices.find? (fun x => x.device_id == did && x.is_active) = none) :
    Controllers.device_heartbeat s key did st now = (s, 404, none) := by
  simp [Controllers.device_heartbeat, DeviceService.update_heartbeat,
        DeviceRepository.update_heartbeat, h]

/-- C5 witness: a heartbeat for a soft-deleted device is a 404. -/
theorem heartbeat_unknown_device_404_witness :
    Controllers.device_heartbeat inactiveDeviceStore none "d1" none 3 =
      (inactiveDeviceStore, 404, none) :=
  heartbeat_unknown_device_404 inactiveDeviceStore "d1" none 3 none (by decide)

/-- C2 theorem (amended). For an active device with an assignment, the
heartbeat resolves an active model to
`should_download := true` with its metadata; a missing or inactive
model yields `should_download := false` and no metadata, without
erroring, while `model_id` in the response echoes the device's stored
assignment in both cases. -/
theorem heartbeat_assignment_resolution (s : Store) (did : String)
    (st : Option String) (now : Nat) (d : Device) (mid : String)
    (hfind : s.devices.find? (fun x => x.device_id == did && x.is_active) = some d)
    (hmid : d.current_model_id = some mid) :
    (∀ m, ModelRepository.get_by_id s mid = some m →
      (DeviceService.update_heartbeat s did st now).2 =
        .ok { model_id := some mid, should_download := true,
              metadata := m.model_metadata }) ∧
    (ModelRepository.get_by_id s mid = none →
      (DeviceService.update_heartbeat s did st now).2 =
        .ok { model_id := some mid, should_download := false,
              metadata := none }) := by
  constructor
  · intro m hm
    simp only [ModelRepository.get_by_id] at hm
    simp [DeviceService.update_heartbeat, DeviceRepository.update_heartbeat,
          hfind, hmid, ModelRepository.get_by_id, hm]
  · intro hm
    simp only [ModelRepository.get_by_id] at hm
    simp [DeviceService.update_heartbeat, DeviceRepository.update_heartbeat,
          hfind, hmid, ModelRepository.get_by_id, hm]

/-- C2 witness: with model `m1` active, the heartbeat resolves the
assignment to a download instruction carrying the model metadata. -/
theorem heartbeat_assignment_resolution_witness :
    (DeviceService.update_heartbeat sampleStore "d1" none 5).2 =
      .ok { model_id := some "m1", should_download := true,
            metadata := some "labels" } :=
  (heartbeat_assignment_resolution sampleStore "d1" none 5 sampleDevice "m1"
      (by decide) (by decide)).1 sampleModel (by decide)

/-- C2 counterexample: with the assignment orphaned (no model `m1`),
the heartbeat answers `should_download := false` but `model_id` is the
stale `"m1"`, not null as the claim states. -/
theorem heartbeat_orphan_keeps_stale_model_id :
    (DeviceService.update_heartbeat orphanStore "d1" none 5).2 =
      .ok { model_id := some "m1", should_download := false,
            metadata := none } ∧
    some "m1" ≠ (none : Option String) := by
  exact ⟨rfl, by simp⟩

/-- C3 theorem. Result upload succeeds exactly when the referenced
device and model both exist and are active: otherwise the endpoint
answers 404 and the store is untouched; on success the new result row
is appended and the device's `last_active` is refreshed to now. -/
theorem create_result_active_refs (s : Store) (did mid rv : String)
    (conf : Int) (extra : Option String) (nid : String) (now : Nat)
    (key : Option String) :
    ((s.devices.find? (fun x => x.device_id == did && x.is_active) = none ∨
      s.models.find? (fun m => m.model_id == mid && m.is_active) = none) →
      Controllers.upload_result s key did mid rv conf extra nid now = (s, 404)) ∧
    (∀ d, s.devices.find? (fun x => x.device_id == did && x.is_active) = some d →
      (s.models.find? (fun m => m.model_id == mid && m.is_active)).isSome →
      (Controllers.upload_result s key did mid rv conf extra nid now).2 = 200 ∧
      (Controllers.upload_result s key did mid rv conf extra nid now).1.results =
        s.results ++ [{ result_id := nid, device_id := did, model_id := mid,
                        timestamp := now, result := rv, confidence := conf,
                        result_metadata := extra }] ∧
      (Controllers.upload_result s key did mid rv conf extra nid now).1.devices.find?
          (fun x => x.device_id == did && x.is_active) =
        some { d with last_active := now }) := by
  have h404 : containsNotFound "Device or model not found" = true := by decide
  constructor
  · intro h
    rcases h with h | h
    · simp [Controllers.upload_result, ResultService.create_result,
            ResultRepository.create, h, h404]
    · cases hdev : s.devices.find? (fun x => x.device_id == did && x.is_active) with
      | none =>
        simp [Controllers.upload_result, ResultService.create_result,
              ResultRepository.create, hdev, h404]
      | some d =>
        simp [Controllers.upload_result, ResultService.create_result,
              ResultRepository.create, hdev, h, h404]
  · intro d hd hm
    obtain ⟨m0, hm0⟩ := Option.isSome_iff_exists.mp hm
    have hpd := List.find?_some hd
    have hfind1 : (updateFirst (fun x : Device => x.device_id == did && x.is_active)
        (fun x => { x with last_active := now }) s.devices).find?
        (fun x : Device => x.device_id == did && x.is_active) =
        some { d with last_active := now } :=
      find?_updateFirst_same _ _ s.devices d hd (by simpa using hpd)
    have hfind2 : (updateFirst (fun x : Device => x.device_id == did && x.is_active)
        (fun x => { x with last_active := now, status := if truthyStr none then (none : Option String).getD x.status else x.status })
        (updateFirst (fun x : Device => x.device_id == did && x.is_active)
          (fun x => { x with last_active := now }) s.devices)).find?
        (fun x : Device => x.device_id == did && x.is_active) =
        some { d with last_active := now } := by
      have := find?_updateFirst_same
        (fun x : Device => x.device_id == did && x.is_active)
        (fun x => { x with last_active := now, status := if truthyStr none then (none : Option String).getD x.status else x.status })
        (updateFirst (fun x : Device => x.device_id == did && x.is_active)
          (fun x => { x with last_active := now }) s.devices)
        { d with last_active := now } hfind1 (by simpa using hpd)
      simpa [truthyStr] using this
    refine ⟨?_, ?_, ?_⟩
    · simp [Controllers.upload_result, ResultService.create_result,
            ResultRepository.create, DeviceRepository.update_heartbeat,
            hd, hm0, hfind1]
    · simp [Controllers.upload_result, ResultService.create_result,
            ResultRepository.create, DeviceRepository.update_heartbeat,
            hd, hm0, hfind1]
    · simp [Controllers.upload_result, ResultService.create_result,
            ResultRepository.create, DeviceRepository.update_heartbeat,
            hd, hm0, hfind1, truthyStr]
      simpa [truthyStr] using hfind2

/-- C3 witness: uploading a result for the active pair appends exactly
the new row. -/
theorem create_result_active_refs_witness :
    (Controllers.upload_result sampleStore none "d1" "m1" "positive" 9 none
        "r1" 7).1.results =
      sampleStore.results ++
        [{ result_id := "r1", device_id := "d1", model_id := "m1",
           timestamp := 7, result := "positive", confidence := 9,
           result_metadata := none }] :=
  ((create_result_active_refs sampleStore "d1" "m1" "positive" 9 none "r1" 7
      none).2 sampleDevice (by decide) (by decide)).2.1

/-- C6 theorem. The S3 upload strictly precedes record creation: a
failed upload makes the repository raise and the service report
failure with the store unchanged, so no model row is ever created; a
record appears only on the successful-upload path, appended to the
untouched table. -/
theorem model_create_upload_first (s : Store)
    (bucket filename project_name : String) (md : Option String)
    (nid : String) (now : Nat) :
    ModelService.create_model s bucket filename project_name md nid now
      .clientError = (s, false) ∧
    ModelRepository.create s bucket filename project_name md nid now
      .clientError = .error "Failed to upload model to S3" ∧
    (∀ s' m, ModelRepository.create s bucket filename project_name md nid now
        .ok = .ok (s', m) → s'.models = s.models ++ [m]) := by
  refine ⟨rfl, rfl, ?_⟩
  intro s' m h
  simp [ModelRepository.create] at h
  rw [← h.1, ← h.2]

/-- C6 witness: a failing upload leaves the sample store without any
new model row. -/
theorem model_create_upload_first_witness :
    ModelService.create_model sampleStore "bkt" "g.tflite" "proj" none "m2" 4
      .clientError = (sampleStore, false) :=
  (model_create_upload_first sampleStore "bkt" "g.tflite" "proj" none "m2" 4).1

/-- C7 theorem. Hard delete of an existing model reports success and
removes the row whether or not the S3 artifact delete fails: the
outcome is identical for both storage outcomes, and (keys being
unique) no row with the id survives. -/
theorem hard_delete_ignores_storage_failure (s : Store) (mid : String)
    (hs : s.wf)
    (hm : (s.models.find? (fun m => m.model_id == mid)).isSome) :
    (∀ s3 s3', ModelRepository.hard_delete s mid s3 =
      ModelRepository.hard_delete s mid s3') ∧
    (ModelRepository.hard_delete s mid .clientError).2 = true ∧
    (∀ m ∈ (ModelRepository.hard_delete s mid .clientError).1.models,
      m.model_id ≠ mid) := by
  obtain ⟨m0, hm0⟩ := Option.isSome_iff_exists.mp hm
  refine ⟨?_, ?_, ?_⟩
  · intro s3 s3'
    cases s3 <;> cases s3' <;> simp [ModelRepository.hard_delete, hm0]
  · simp [ModelRepository.hard_delete, hm0]
  · intro m hmm
    simp [ModelRepository.hard_delete, hm0] at hmm
    exact mem_removeFirst_key_ne MLModel.model_id mid s.models hs.2 m hmm

/-- C7 witness: hard-deleting `m1` with a failing S3 delete still
reports success. -/
theorem hard_delete_ignores_storage_failure_witness :
    (ModelRepository.hard_delete sampleStore "m1" .clientError).2 = true :=
  (hard_delete_ignores_storage_failure sampleStore "m1"
      ⟨by decide, by decide⟩ (by decide)).2.1

theorem mem_insertDesc (r a : ClassificationResult)
    (l : List ClassificationResult) :
    a ∈ ResultRepository.insertDesc r l ↔ a = r ∨ a ∈ l := by
  induction l with
  | nil => simp [ResultRepository.insertDesc]
  | cons x xs ih =>
    by_cases h : x.timestamp < r.timestamp
    · simp [ResultRepository.insertDesc, h]
    · simp [ResultRepository.insertDesc, h, ih]
      tauto

theorem sorted_insertDesc (r : ClassificationResult)
    (l : List ClassificationResult)
    (h : l.Pairwise (fun a b => b.timestamp ≤ a.timestamp)) :
    (ResultRepository.insertDesc r l).Pairwise
      (fun a b => b.timestamp ≤ a.timestamp) := by
  induction l with
  | nil => simp [ResultRepository.insertDesc]
  | cons x xs ih =>
    rcases List.pairwise_cons.mp h with ⟨hx, hxs⟩
    by_cases hlt : x.timestamp < r.timestamp
    · rw [ResultRepository.insertDesc, if_pos hlt]
      refine List.pairwise_cons.mpr ⟨?_, h⟩
      intro b hb
      rcases List.mem_cons.mp hb with rfl | hbx
      · exact le_of_lt hlt
      · exact le_trans (hx b hbx) (le_of_lt hlt)
    · rw [ResultRepository.insertDesc, if_neg hlt]
      refine List.pairwise_cons.mpr ⟨?_, ih hxs⟩
      intro b hb
      rcases (mem_insertDesc r b xs).mp hb with rfl | hbx
      · exact le_of_not_lt hlt
      · exact hx b hbx

theorem mem_sortDesc (a : ClassificationResult)
    (l : List ClassificationResult) :
    a ∈ ResultRepository.sortDesc l ↔ a ∈ l := by
  induction l with
  | nil => simp [ResultRepository.sortDesc]
  | cons x xs ih => simp [ResultRepository.sortDesc, mem_insertDesc, ih]

theorem sorted_sortDesc (l : List ClassificationResult) :
    (ResultRepository.sortDesc l).Pairwise
      (fun a b => b.timestamp ≤ a.timestamp) := by
  induction l with
  | nil => simp [ResultRepository.sortDesc]
  | cons x xs ih => exact sorted_insertDesc x _ ih

/-- Every list the repository can return is contained in the join-
filtered base table. -/
theorem get_all_subset (s : Store) (df mf : Option String) (limit : Nat) :
    ∀ r ∈ ResultRepository.get_all s df mf limit,
      r ∈ s.results.filter (ResultRepository.passesJoin s) := by
  intro r hr
  simp only [ResultRepository.get_all] at hr
  have hr1 : r ∈ ResultRepository.sortDesc
      ((if truthyStr mf then
          (if truthyStr df then
            (s.results.filter (ResultRepository.passesJoin s)).filter
              (fun r => r.device_id == df.getD "")
          else s.results.filter (ResultRepository.passesJoin s)).filter
            (fun r => r.model_id == mf.getD "")
        else
          (if truthyStr df then
            (s.results.filter (ResultRepository.passesJoin s)).filter
              (fun r => r.device_id == df.getD "")
          else s.results.filter (ResultRepository.passesJoin s)))) := by
    split at hr
    · exact List.take_subset _ _ hr
    · exact hr
  rw [mem_sortDesc] at hr1
  split at hr1
  · have hr2 := List.mem_of_mem_filter hr1
    split at hr2
    · exact List.mem_of_mem_filter hr2
    · exact hr2
  · split at hr1
    · exact List.mem_of_mem_filter hr1
    · exact hr1

/-- C4 theorem (amended). Every result the listing returns has a
currently-active device and a currently-active model; the listing is
ordered newest-first by timestamp; when the limit is non-zero the
listing has at most `limit` entries (a zero limit disables the cap);
and the endpoint's limit defaults to 50. -/
theorem list_results_filtered_sorted_capped (s : Store)
    (df mf : Option String) (limit : Nat) :
    (∀ r ∈ ResultRepository.get_all s df mf limit,
      (∃ d ∈ s.devices, d.device_id = r.device_id ∧ d.is_active = true) ∧
      (∃ m ∈ s.models, m.model_id = r.model_id ∧ m.is_active = true)) ∧
    (ResultRepository.get_all s df mf limit).Pairwise
      (fun a b => b.timestamp ≤ a.timestamp) ∧
    (limit ≠ 0 → (ResultRepository.get_all s df mf limit).length ≤ limit) ∧
    Controllers.list_results s df mf none =
      ResultRepository.get_all s df mf 50 := by
  refine ⟨?_, ?_, ?_, rfl⟩
  · intro r hr
    have hmem := get_all_subset s df mf limit r hr
    have hjoin := List.of_mem_filter hmem
    simp only [ResultRepository.passesJoin, Bool.and_eq_true, List.any_eq_true]
      at hjoin
    obtain ⟨⟨d, hd, hdp⟩, ⟨m, hm, hmp⟩⟩ := hjoin
    simp only [Bool.and_eq_true, beq_iff_eq] at hdp hmp
    exact ⟨⟨d, hd, hdp.1, hdp.2⟩, ⟨m, hm, hmp.1, hmp.2⟩⟩
  · simp only [ResultRepository.get_all]
    split
    · exact (sorted_sortDesc _).sublist (List.take_sublist _ _)
    · exact sorted_sortDesc _
  · intro hl
    simp only [ResultRepository.get_all, if_pos hl]
    exact List.length_take_le _ _

/-- Sample result row referencing the active sample device and model. -/
def sampleResult : ClassificationResult :=
  { result_id := "r1", device_id := "d1", model_id := "m1", timestamp := 1,
    result := "positive", confidence := 1, result_metadata := none }

def resultStore : Store :=
  { devices := [sampleDevice], models := [sampleModel],
    results := [sampleResult] }

/-- C4 witness: with the default-sized limit the listing of the sample
store respects the cap. -/
theorem list_results_filtered_sorted_capped_witness :
    (ResultRepository.get_all resultStore none none 50).length ≤ 50 :=
  (list_results_filtered_sorted_capped resultStore none none 50).2.2.1
    (by decide)

/-- C4 counterexample: with `limit = 0` the cap is skipped
(`if limit:` is false), so the listing returns more than `limit`
results, against the claim's universal cap. -/
theorem list_results_zero_limit_uncapped :
    ¬ ((ResultRepository.get_all resultStore none none 0).length ≤ 0) := by
  decide

theorem require_api_key_reject (key : Option String) (cfg : String)
    (hbad : key = none ∨ ∃ k, key = some k ∧ k ≠ cfg) :
    require_api_key key cfg = some 401 := by
  rcases hbad with rfl | ⟨k, rfl, hk⟩
  · rfl
  · by_cases he : k = ""
    · simp [require_api_key, he]
    · simp [require_api_key, beq_eq_false_iff_ne.mpr he,
            beq_eq_false_iff_ne.mpr hk]

/-- C9 theorem. A missing or mismatching `X-API-Key` makes each gated
endpoint (set_model, device delete, model create, model delete) answer
401 with the store untouched, while registration, heartbeat and result
upload ignore the header entirely (their outcome is the same for every
header value and is never a 401; registration just succeeds). -/
theorem api_key_gating (s : Store) (cfg : String) (key : Option String)
    (hbad : key = none ∨ ∃ k, key = some k ∧ k ≠ cfg) :
    (∀ did body now,
      Controllers.set_device_model s key cfg did body now = (s, 401)) ∧
    (∀ did hard, Controllers.delete_device s key cfg did hard = (s, 401)) ∧
    (∀ bucket filename project_name md nid now upload,
      Controllers.upload_model s key cfg bucket filename project_name md nid
        now upload = (s, 401)) ∧
    (∀ mid hard s3, Controllers.delete_model s key cfg mid hard s3 = (s, 401)) ∧
    (∀ k2 device_name nid now,
      Controllers.register_device s k2 device_name nid now =
        Controllers.register_device s none device_name nid now) ∧
    (∀ k2 did st now,
      Controllers.device_heartbeat s k2 did st now =
        Controllers.device_heartbeat s none did st now) ∧
    (∀ k2 did mid rv conf extra nid now,
      Controllers.upload_result s k2 did mid rv conf extra nid now =
        Controllers.upload_result s none did mid rv conf extra nid now) ∧
    (∀ device_name nid now,
      (Controllers.register_device s none device_name nid now).2 = 200) ∧
    (∀ k2 did st now,
      (Controllers.device_heartbeat s k2 did st now).2.1 ≠ 401) ∧
    (∀ k2 did mid rv conf extra nid now,
      (Controllers.upload_result s k2 did mid rv conf extra nid now).2 ≠ 401) := by
  have hrej := require_api_key_reject key cfg hbad
  refine ⟨?_, ?_, ?_, ?_, ?_, ?_, ?_, ?_, ?_, ?_⟩
  · intro did body now
    simp [Controllers.set_device_model, hrej]
  · intro did hard
    simp [Controllers.delete_device, hrej]
  · intro bucket filename project_name md nid now upload
    simp [Controllers.upload_model, hrej]
  · intro mid hard s3
    simp [Controllers.delete_model, hrej]
  · intro k2 device_name nid now; rfl
  · intro k2 did st now; rfl
  · intro k2 did mid rv conf extra nid now; rfl
  · intro device_name nid now
    simp [Controllers.register_device, DeviceService.register_device,
          DeviceRepository.create]
  · intro k2 did st now
    rw [Controllers.device_heartbeat]
    split <;> simp
  · intro k2 did mid rv conf extra nid now
    rw [Controllers.upload_result]
    split
    · simp
    · split <;> simp

/-- C9 witness: a model hard-delete request with no key is rejected
with 401 and no effect. -/
theorem api_key_gating_witness :
    Controllers.delete_model sampleStore none "secret" "m1" true .ok =
      (sampleStore, 401) :=
  (api_key_gating sampleStore "secret" none (Or.inl rfl)).2.2.2.1 "m1" true .ok

/-- C10 theorem. At the set_model endpoint a `model_id` of JSON null or
of the strings `"null"` / `"None"` unassigns: with a valid key and an
active device the request succeeds with 200 and the stored row has
`current_model_id := none` (no model lookup constrains the store's
models in any way). -/
theorem set_model_null_strings_unassign (s : Store) (cfg : String)
    (hcfg : cfg ≠ "") (did : String) (now : Nat) (d : Device)
    (hfind : s.devices.find? (fun x => x.device_id == did && x.is_active) = some d)
    (body : JsonId)
    (hbody : body = .jnull ∨ body = .jstr "null" ∨ body = .jstr "None") :
    (Controllers.set_device_model s (some cfg) cfg did body now).2 = 200 ∧
    (Controllers.set_device_model s (some cfg) cfg did body now).1.devices.find?
        (fun x => x.device_id == did && x.is_active) =
      some { d with current_model_id := none, last_active := now } := by
  have hkey : require_api_key (some cfg) cfg = none := by
    simp [require_api_key, beq_eq_false_iff_ne.mpr hcfg]
  have hparse : parseModelId body = none := by
    rcases hbody with rfl | rfl | rfl <;> rfl
  have hfind2 := find?_updateFirst_same
      (fun x : Device => x.device_id == did && x.is_active)
      (fun x => { x with current_model_id := none, last_active := now })
      s.devices d hfind (by simpa using List.find?_some hfind)
  constructor <;>
    simp [Controllers.set_device_model, hkey, hparse,
          DeviceService.set_device_model, DeviceRepository.update_model,
          truthyStr, hfind, hfind2]

/-- C10 witness: sending the string `"null"` unassigns the sample
device's model. -/
theorem set_model_null_strings_unassign_witness :
    (Controllers.set_device_model sampleStore (some "secret") "secret" "d1"
        (.jstr "null") 6).1.devices.find?
        (fun x => x.device_id == "d1" && x.is_active) =
      some { sampleDevice with current_model_id := none, last_active := 6 } :=
  (set_model_null_strings_unassign sampleStore "secret" (by decide) "d1" 6
      sampleDevice (by decide) (.jstr "null") (Or.inr (Or.inl rfl))).2
